import Mathlib

/-!
Verification of the ev-charging-app backend (Python, FastAPI) against its
natural-language specification.  Each definition below is a shallow
embedding of a function of `backend/app/main.py`, `backend/app/etl.py` or
the pydantic models of `backend/app/models.py`; the theorems settle the
frozen claims about those functions.

Modelling conventions:
* JSON scalar values are `Val` (integers and strings); numeric coercion
  performed by pydantic is not modelled, only presence/absence of values.
* Python `dict.get` returning `None` for an absent key is `Option`.
* A MongoDB collection is a `List` of documents; `update_one` / `replace_one`
  / `delete_one` act on the first matching document, as Mongo does.
* A Python function that can raise an exception is modelled as returning
  `Option` (`none` = an exception propagates and nothing further happens).
-/

namespace EV

/-- Scalar JSON value as moved around by the backend (numbers and strings;
the code under verification never computes with these values, it only
copies and compares them). -/
inductive Val where
  | vint : Int → Val
  | vstr : String → Val
deriving DecidableEq

/-- An NGSI-LD attribute object `{value?, observedAt?}` as read by
`apply_realtime_event` and `get_property_value`: `value := none` models both
an absent `value` key and an explicit JSON null. -/
structure NAttr where
  value : Option Val := none
  observedAt : Option String := none
deriving DecidableEq

/-- An NGSI-LD relationship object `{object?}` (e.g. `refFeatureOfInterest`). -/
structure RefAttr where
  object : Option String := none
deriving DecidableEq

/-- The recognized keys of a realtime-event entity dict, as read by
`apply_realtime_event` (main.py 427-524) and `import_session_entity`
(etl.py 111-151).  A field that is `none` models a key that is absent or
whose value is not a dict (the code guards every access with
`isinstance(..., dict)` or `.get`). -/
structure Entity where
  id : Option String := none
  type : Option String := none
  availableCapacity : Option NAttr := none
  status : Option NAttr := none
  instantaneousPower : Option NAttr := none
  queueLength : Option NAttr := none
  refFeatureOfInterest : Option RefAttr := none
  refSensor : Option RefAttr := none
  startDateTime : Option NAttr := none
  endDateTime : Option NAttr := none
  phenomenonTime : Option NAttr := none
  resultTime : Option NAttr := none
  vehicleType : Option NAttr := none
  chargingUnitId : Option NAttr := none
  transactionId : Option NAttr := none
  transactionType : Option NAttr := none
  powerConsumption : Option NAttr := none
  amountCollected : Option NAttr := none
  taxAmountCollected : Option NAttr := none
deriving DecidableEq

/-- Embeds `get_property_value` (etl.py 23-27) with default `None`: the attribute's
`value` field when the attribute is present as a dict, otherwise the default. -/
def get_property_value (attr : Option NAttr) : Option Val :=
  attr.bind fun p => p.value

/-- The `$set` document built for a station update (main.py 438-481): the
first four fields are the `updates` dict (normalized fields), the remaining
fields are the `raw_updates` dict (the dotted `raw.*` mirror keys).  A field
that is `none` models a key that is not in the dict. -/
structure StationSetMap where
  available_capacity : Option Val := none
  status : Option Val := none
  instantaneous_power : Option Val := none
  queue_length : Option Val := none
  rawAvailableCapacityValue : Option Val := none
  rawAvailableCapacityObservedAt : Option String := none
  rawStatusValue : Option Val := none
  rawStatusObservedAt : Option String := none
  rawInstantaneousPowerValue : Option Val := none
  rawQueueLengthValue : Option Val := none
deriving DecidableEq

/-- Builds the `updates` and `raw_updates` dicts of the station-update branch
of `apply_realtime_event` (main.py 438-481), faithfully to each attribute:
`availableCapacity` contributes its value (normalized + raw) and its
`observedAt` (raw only, even when the value is null); `status` contributes
its value (normalized + raw) and its `observedAt` (raw only, even when the
value is null); `instantaneousPower` and `queueLength` contribute only their
values (no `observedAt` handling in the code). -/
def mkStationSetMap (e : Entity) : StationSetMap :=
  { available_capacity := get_property_value e.availableCapacity
    status := get_property_value e.status
    instantaneous_power := get_property_value e.instantaneousPower
    queue_length := get_property_value e.queueLength
    rawAvailableCapacityValue := get_property_value e.availableCapacity
    rawAvailableCapacityObservedAt := e.availableCapacity.bind fun a => a.observedAt
    rawStatusValue := get_property_value e.status
    rawStatusObservedAt := e.status.bind fun a => a.observedAt
    rawInstantaneousPowerValue := get_property_value e.instantaneousPower
    rawQueueLengthValue := get_property_value e.queueLength }

/-- The check `if not updates: return` (main.py 476): the `updates` dict is
nonempty exactly when one of the four normalized fields was set. -/
def setMapHasUpdates (m : StationSetMap) : Bool :=
  m.available_capacity.isSome || m.status.isSome ||
    m.instantaneous_power.isSome || m.queue_length.isSome

/-- Nested `raw` mirror of the four realtime attributes inside a stored
station document (the dotted keys `raw.availableCapacity.value` etc. target
these subobjects). -/
structure RawStation where
  availableCapacity : NAttr := {}
  status : NAttr := {}
  instantaneousPower : NAttr := {}
  queueLength : NAttr := {}
deriving DecidableEq

/-- A stored station document as touched by the realtime feed: the four
normalized fields, the nested raw mirror, and `rest`, the remaining fields
of the document (name, capacity, location, ...), which no realtime station
update ever writes. -/
structure StationDoc where
  id : String
  available_capacity : Option Val := none
  status : Option Val := none
  instantaneous_power : Option Val := none
  queue_length : Option Val := none
  raw : RawStation := {}
  rest : List (String × Val) := []
deriving DecidableEq

/-- Mongo `$set` semantics for one key: a key present in the set document
overwrites the stored field, an absent key leaves it unchanged. -/
def setField {α : Type} (new old : Option α) : Option α :=
  match new with
  | some v => some v
  | none => old

/-- Effect of `update_one({"_id": sid}, {"$set": ...})` on one matching
station document (main.py 479-483). -/
def applySetMap (d : StationDoc) (m : StationSetMap) : StationDoc :=
  { d with
    available_capacity := setField m.available_capacity d.available_capacity
    status := setField m.status d.status
    instantaneous_power := setField m.instantaneous_power d.instantaneous_power
    queue_length := setField m.queue_length d.queue_length
    raw :=
      { availableCapacity :=
          { value := setField m.rawAvailableCapacityValue d.raw.availableCapacity.value
            observedAt := setField m.rawAvailableCapacityObservedAt d.raw.availableCapacity.observedAt }
        status :=
          { value := setField m.rawStatusValue d.raw.status.value
            observedAt := setField m.rawStatusObservedAt d.raw.status.observedAt }
        instantaneousPower :=
          { value := setField m.rawInstantaneousPowerValue d.raw.instantaneousPower.value
            observedAt := d.raw.instantaneousPower.observedAt }
        queueLength :=
          { value := setField m.rawQueueLengthValue d.raw.queueLength.value
            observedAt := d.raw.queueLength.observedAt } } }

/-- Embeds `update_one`: it updates the first document matching the `_id` filter
(in Mongo `_id` is unique); no matching document means no write. -/
def updateFirstStation : List StationDoc → String → StationSetMap → List StationDoc
  | [], _, _ => []
  | d :: ds, sid, m =>
    if d.id = sid then applySetMap d m :: ds else d :: updateFirstStation ds sid m

/-- Payload of a `station_update` broadcast (main.py 485-495): the values of
the `updates` dict under the four fixed keys (`updates.get(k)` yields `none`
for a field that was not updated), plus `observedAt` taken from the `status`
attribute only. -/
structure StationPayload where
  available_capacity : Option Val
  status : Option Val
  instantaneous_power : Option Val
  queue_length : Option Val
  observedAt : Option String
deriving DecidableEq

/-- Payload of a `session_upsert` broadcast (main.py 511-523), built directly
from the event entity with `get_property_value`. -/
structure SessionPayload where
  vehicle_type : Option Val
  start_date_time : Option Val
  end_date_time : Option Val
  power_consumption_kwh : Option Val
  amount_collected_vnd : Option Val
  tax_amount_collected_vnd : Option Val
deriving DecidableEq

/-- A message handed to `manager.broadcast` by `apply_realtime_event`. -/
inductive Msg where
  | stationUpdate (stationId : String) (payload : StationPayload)
  | sessionUpsert (sessionId : Option String) (stationId : Option String)
      (payload : SessionPayload)
deriving DecidableEq

/-- A realtime event `{operation, entity}` from `realtime_sample.json`. -/
structure RTEvent where
  operation : Option String := none
  entity : Entity := {}
deriving DecidableEq

/-- Models `dateutil.parser.isoparse` applied to the result of
`get_property_value` (etl.py 29-30, 116-119): `isoparse(None)` raises
`TypeError` and `isoparse` of a non-string raises, modelled as `none`;
a string value parses (the external parser's rejection of malformed ISO
strings is not modelled — no claim depends on it).  The parsed datetime is
kept as its source string. -/
def parse_iso : Option Val → Option String
  | some (Val.vstr s) => some s
  | _ => none

/-- A stored session document (`SessionInDB.model_dump()` plus `_id`,
etl.py 129-151).  `models.py` makes `station_id`, the four datetimes and the
three numeric fields required (non-null), the remaining fields optional. -/
structure SessionDoc where
  id : String
  station_id : String
  sensor_id : Option String := none
  vehicle_type : Option Val := none
  charging_unit_id : Option Val := none
  transaction_id : Option Val := none
  transaction_type : Option Val := none
  start_date_time : String
  end_date_time : String
  phenomenon_time : String
  result_time : String
  power_consumption_kwh : Val
  amount_collected_vnd : Val
  tax_amount_collected_vnd : Val
  raw : Entity
deriving DecidableEq

/-- Embeds `replace_one({"_id": id}, doc, upsert=True)`: replace the first document
with the same `_id`, or append when none exists. -/
def replaceOneSession : List SessionDoc → SessionDoc → List SessionDoc
  | [], d => [d]
  | x :: xs, d => if x.id = d.id then d :: xs else x :: replaceOneSession xs d

/-- Embeds `import_session_entity` (etl.py 111-151).  `entity["id"]` raises
`KeyError` when absent; `parse_iso` raises on a missing or non-string
datetime value; the `SessionInDB` constructor raises `ValidationError` when
`station_id` or one of the three required numeric fields is null.  Any of
these exceptions aborts the import (`none`): nothing is written.  On success
the session document replaces (upsert) the stored one and is returned
together with the new collection. -/
def import_session_entity (e : Entity) (sessions : List SessionDoc) :
    Option (SessionDoc × List SessionDoc) :=
  match e.id with
  | none => none
  | some sid =>
    match parse_iso (get_property_value e.startDateTime),
        parse_iso (get_property_value e.endDateTime),
        parse_iso (get_property_value e.phenomenonTime),
        parse_iso (get_property_value e.resultTime) with
    | some startDt, some endDt, some phenDt, some resDt =>
      match e.refFeatureOfInterest.bind (fun r => r.object),
          get_property_value e.powerConsumption,
          get_property_value e.amountCollected,
          get_property_value e.taxAmountCollected with
      | some stId, some pw, some am, some tax =>
        let doc : SessionDoc :=
          { id := sid
            station_id := stId
            sensor_id := e.refSensor.bind fun r => r.object
            vehicle_type := get_property_value e.vehicleType
            charging_unit_id := get_property_value e.chargingUnitId
            transaction_id := get_property_value e.transactionId
            transaction_type := get_property_value e.transactionType
            start_date_time := startDt
            end_date_time := endDt
            phenomenon_time := phenDt
            result_time := resDt
            power_consumption_kwh := pw
            amount_collected_vnd := am
            tax_amount_collected_vnd := tax
            raw := e }
        some (doc, replaceOneSession sessions doc)
      | _, _, _, _ => none
    | _, _, _, _ => none

/-- The two stores `apply_realtime_event` writes to. -/
structure Stores where
  stations : List StationDoc
  sessions : List SessionDoc
deriving DecidableEq

/-- Observable outcome of one `apply_realtime_event` call: the stores after
the call, the station `$set` writes performed, the ids of session documents
replaced, and the messages handed to `manager.broadcast`, each in order. -/
structure StepResult where
  stores : Stores
  stationWrites : List (String × StationSetMap) := []
  sessionReplaces : List String := []
  msgs : List Msg := []
deriving DecidableEq

/-- Embeds `apply_realtime_event` (main.py 427-524).  Station updates: extract the
four recognized attributes; when no normalized update was produced, return
without writing or broadcasting; otherwise perform one `$set` write and one
`station_update` broadcast.  The guard `if not station_id` also drops an
empty-string id.  Session upserts: run `import_session_entity` (an exception
there propagates: `none`), then broadcast one `session_upsert` message
unconditionally.  Any other type/operation combination is a no-op. -/
def apply_realtime_event (s : Stores) (ev : RTEvent) : Option StepResult :=
  let e := ev.entity
  if e.type = some "EVChargingStation" ∧ ev.operation = some "update" then
    match e.id with
    | none => some { stores := s }
    | some sid =>
      if sid = "" then some { stores := s }
      else
        let m := mkStationSetMap e
        if setMapHasUpdates m then
          some
            { stores := { s with stations := updateFirstStation s.stations sid m }
              stationWrites := [(sid, m)]
              msgs :=
                [Msg.stationUpdate sid
                  { available_capacity := m.available_capacity
                    status := m.status
                    instantaneous_power := m.instantaneous_power
                    queue_length := m.queue_length
                    observedAt := e.status.bind fun a => a.observedAt }] }
        else some { stores := s }
  else if e.type = some "EVChargingSession" ∧ ev.operation = some "upsert" then
    match import_session_entity e s.sessions with
    | none => none
    | some (doc, sessions2) =>
      some
        { stores := { s with sessions := sessions2 }
          sessionReplaces := [doc.id]
          msgs :=
            [Msg.sessionUpsert e.id (e.refFeatureOfInterest.bind fun r => r.object)
              { vehicle_type := get_property_value e.vehicleType
                start_date_time := get_property_value e.startDateTime
                end_date_time := get_property_value e.endDateTime
                power_consumption_kwh := get_property_value e.powerConsumption
                amount_collected_vnd := get_property_value e.amountCollected
                tax_amount_collected_vnd := get_property_value e.taxAmountCollected }] }
  else some { stores := s }

/-- Whether applying the event's `$set` map to a stored station document
changes the value of at least one of the four recognized normalized fields
(this is the "actually changed relative to the stored document" reading of
the spec's invariant; the code never performs this comparison). -/
def stationFieldsChanged (d : StationDoc) (e : Entity) : Bool :=
  let d2 := applySetMap d (mkStationSetMap e)
  decide (¬ (d.available_capacity = d2.available_capacity ∧ d.status = d2.status ∧
      d.instantaneous_power = d2.instantaneous_power ∧
      d.queue_length = d2.queue_length))

/-- Documents whose id differs from the updated one survive a
`update_one({"_id": sid}, ...)` untouched. -/
theorem updateFirstStation_mem_of_ne (stations : List StationDoc) (sid : String)
    (m : StationSetMap) (d : StationDoc) (hd : d ∈ stations) (hne : d.id ≠ sid) :
    d ∈ updateFirstStation stations sid m := by
  induction stations with
  | nil => exact absurd hd (List.not_mem_nil d)
  | cons x xs ih =>
    rcases List.mem_cons.mp hd with h | h
    · subst h
      rw [updateFirstStation, if_neg hne]
      exact List.mem_cons_self _ _
    · rw [updateFirstStation]
      split
      · exact List.mem_cons_of_mem _ h
      · exact List.mem_cons_of_mem _ (ih h)

/- Concrete input for claim C1: a station stored with available capacity 5
(raw mirror in sync), and an update event carrying the same value 5. -/

def c1Doc : StationDoc :=
  { id := "s1"
    available_capacity := some (Val.vint 5)
    raw := { availableCapacity := { value := some (Val.vint 5) } } }

def c1Entity : Entity :=
  { id := some "s1"
    type := some "EVChargingStation"
    availableCapacity := some { value := some (Val.vint 5) } }

def c1Stores : Stores := { stations := [c1Doc], sessions := [] }

/-- Claim C1, counterexample: a station-update event whose `availableCapacity`
value equals the value already stored still emits a `station_update`
broadcast (one message), although none of the four recognized fields changes
value relative to the stored document (the station collection is bit-for-bit
unchanged).  The claimed "notification iff a field actually changed" is
therefore false at this input: the code never compares against the store. -/
theorem c1_equal_value_still_broadcasts :
    (apply_realtime_event c1Stores { operation := some "update", entity := c1Entity }).map
        (fun r => r.msgs.length) = some 1 ∧
    stationFieldsChanged c1Doc c1Entity = false ∧
    (apply_realtime_event c1Stores { operation := some "update", entity := c1Entity }).map
        (fun r => r.stores) = some c1Stores := by decide

/-- Claim C1 as amended: for every station-update event carrying a station id,
a `station_update` notification is broadcast if and only if at least one of
the four recognized attributes is present (as an object) with a non-null
value — independently of the values already stored. -/
theorem c1_station_broadcast_iff (s : Stores) (e : Entity) (sid : String)
    (htype : e.type = some "EVChargingStation") (hid : e.id = some sid)
    (hsid : sid ≠ "") :
    ∃ r, apply_realtime_event s { operation := some "update", entity := e } = some r ∧
      (r.msgs ≠ [] ↔ setMapHasUpdates (mkStationSetMap e) = true) := by
  cases h : setMapHasUpdates (mkStationSetMap e) with
  | true =>
    refine ⟨{ stores := { stations := updateFirstStation s.stations sid (mkStationSetMap e),
                          sessions := s.sessions }
              stationWrites := [(sid, mkStationSetMap e)]
              msgs := [Msg.stationUpdate sid
                { available_capacity := (mkStationSetMap e).available_capacity
                  status := (mkStationSetMap e).status
                  instantaneous_power := (mkStationSetMap e).instantaneous_power
                  queue_length := (mkStationSetMap e).queue_length
                  observedAt := e.status.bind fun a => a.observedAt }] }, ?_, by simp⟩
    unfold apply_realtime_event
    simp [htype, hid, hsid, h]
  | false =>
    refine ⟨{ stores := s }, ?_, by simp [h]⟩
    unfold apply_realtime_event
    simp [htype, hid, hsid, h]

/-- Witness for the amended C1 at the concrete input of the counterexample. -/
theorem c1_station_broadcast_iff_witness :
    ∃ r, apply_realtime_event c1Stores { operation := some "update", entity := c1Entity } = some r ∧
      (r.msgs ≠ [] ↔ setMapHasUpdates (mkStationSetMap c1Entity) = true) :=
  c1_station_broadcast_iff c1Stores c1Entity "s1" rfl rfl (by decide)

/-- Claim C4: a station-update event in which none of the four recognized
attributes carries a non-null value produces no station write, no session
replace, no broadcast, and leaves both stores unchanged (the early
`if not updates: return` at main.py 476). -/
theorem c4_no_update_no_write_no_broadcast (s : Stores) (ev : RTEvent)
    (htype : ev.entity.type = some "EVChargingStation")
    (hop : ev.operation = some "update")
    (hno : setMapHasUpdates (mkStationSetMap ev.entity) = false) :
    apply_realtime_event s ev = some { stores := s } := by
  unfold apply_realtime_event
  rw [if_pos ⟨htype, hop⟩]
  cases hI : ev.entity.id with
  | none => rfl
  | some sid =>
    by_cases hs : sid = ""
    · simp [hs]
    · simp [hs, hno]

/- Concrete input for claim C4: both recognized attributes that are present
carry only null values or a bare observation timestamp. -/

def c4Event : RTEvent :=
  { operation := some "update"
    entity :=
      { id := some "s9"
        type := some "EVChargingStation"
        availableCapacity := some { observedAt := some "2025-01-01T00:00:00Z" }
        status := some { value := none } } }

def c4Stores : Stores := { stations := [{ id := "s9" }], sessions := [] }

/-- Witness for C4: an event whose attributes carry an observation timestamp
but no value writes nothing and broadcasts nothing. -/
theorem c4_no_update_witness :
    apply_realtime_event c4Stores c4Event = some { stores := c4Stores } :=
  c4_no_update_no_write_no_broadcast c4Stores c4Event rfl rfl (by decide)

/- Concrete input for claim C5: the only recognized attribute with a
non-null value is availableCapacity, but the status attribute is present
with a bare observation timestamp. -/

def c5Doc : StationDoc := { id := "s2" }

def c5Entity : Entity :=
  { id := some "s2"
    type := some "EVChargingStation"
    availableCapacity := some { value := some (Val.vint 7) }
    status := some { observedAt := some "2025-03-01T00:00:00Z" } }

/-- Claim C5, counterexample: on an event whose only recognized attribute with
a non-null value is `availableCapacity` (the status attribute carries a null
value but an `observedAt` timestamp), the write also sets the stored
document's `raw.status.observedAt` — a station field other than the
available-capacity field and its own raw mirror — so "updates exactly the
available-capacity field and no other station field" is false at this input. -/
theorem c5_status_observedAt_also_written :
    get_property_value c5Entity.status = none ∧
    get_property_value c5Entity.instantaneousPower = none ∧
    get_property_value c5Entity.queueLength = none ∧
    c5Doc.raw.status.observedAt = none ∧
    (apply_realtime_event { stations := [c5Doc], sessions := [] }
          { operation := some "update", entity := c5Entity }).map
        (fun r => r.stores.stations.map fun d => d.raw.status.observedAt) =
      some [some "2025-03-01T00:00:00Z"] := by decide

/-- Claim C5 as amended: for a station-update event in which availableCapacity
is present with a non-null value, the three other recognized attributes carry
no value, and the status attribute (if present at all) carries no observation
timestamp, the code performs exactly one `$set` write whose effect on a
station document is to set the available-capacity field and its raw mirror
and leave every other field (status, power, queue length, their raw mirrors,
and all remaining fields) unchanged; documents with a different id are
untouched, and exactly one broadcast is emitted whose payload carries
`availableCapacity` as its only non-null recognized field. -/
theorem c5_only_available_capacity (s : Stores) (e : Entity) (sid : String)
    (a : NAttr) (v : Val)
    (htype : e.type = some "EVChargingStation") (hid : e.id = some sid)
    (hsid : sid ≠ "") (hav : e.availableCapacity = some a) (hv : a.value = some v)
    (hst : get_property_value e.status = none)
    (hstObs : e.status.bind (fun x => x.observedAt) = none)
    (hpw : get_property_value e.instantaneousPower = none)
    (hql : get_property_value e.queueLength = none) :
    ∃ r, apply_realtime_event s { operation := some "update", entity := e } = some r ∧
      r.stationWrites = [(sid, mkStationSetMap e)] ∧
      r.msgs = [Msg.stationUpdate sid
        { available_capacity := some v, status := none, instantaneous_power := none
          queue_length := none, observedAt := none }] ∧
      r.stores.sessions = s.sessions ∧
      r.stores.stations = updateFirstStation s.stations sid (mkStationSetMap e) ∧
      (∀ d : StationDoc,
        (applySetMap d (mkStationSetMap e)).id = d.id ∧
        (applySetMap d (mkStationSetMap e)).available_capacity = some v ∧
        (applySetMap d (mkStationSetMap e)).raw.availableCapacity.value = some v ∧
        (applySetMap d (mkStationSetMap e)).status = d.status ∧
        (applySetMap d (mkStationSetMap e)).instantaneous_power = d.instantaneous_power ∧
        (applySetMap d (mkStationSetMap e)).queue_length = d.queue_length ∧
        (applySetMap d (mkStationSetMap e)).rest = d.rest ∧
        (applySetMap d (mkStationSetMap e)).raw.status = d.raw.status ∧
        (applySetMap d (mkStationSetMap e)).raw.instantaneousPower = d.raw.instantaneousPower ∧
        (applySetMap d (mkStationSetMap e)).raw.queueLength = d.raw.queueLength) ∧
      (∀ d ∈ s.stations, d.id ≠ sid → d ∈ r.stores.stations) := by
  have hava : get_property_value e.availableCapacity = some v := by
    simp [get_property_value, hav, hv]
  have havo : (e.availableCapacity.bind fun x => x.observedAt) = a.observedAt := by
    rw [hav]; rfl
  have hm : mkStationSetMap e =
      { available_capacity := some v
        rawAvailableCapacityValue := some v
        rawAvailableCapacityObservedAt := a.observedAt } := by
    unfold mkStationSetMap
    rw [hava, hst, hpw, hql, hstObs, havo]
  have hups : setMapHasUpdates (mkStationSetMap e) = true := by
    rw [hm]; rfl
  refine ⟨{ stores := { stations := updateFirstStation s.stations sid (mkStationSetMap e),
                        sessions := s.sessions }
            stationWrites := [(sid, mkStationSetMap e)]
            msgs := [Msg.stationUpdate sid
              { available_capacity := (mkStationSetMap e).available_capacity
                status := (mkStationSetMap e).status
                instantaneous_power := (mkStationSetMap e).instantaneous_power
                queue_length := (mkStationSetMap e).queue_length
                observedAt := e.status.bind fun x => x.observedAt }] }, ?_, ?_, ?_, rfl, rfl,
          ?_, ?_⟩
  · unfold apply_realtime_event
    simp [htype, hid, hsid, hups]
  · rfl
  · rw [hm, hstObs]
  · intro d
    rw [hm]
    unfold applySetMap setField
    refine ⟨rfl, rfl, rfl, rfl, rfl, rfl, rfl, rfl, rfl, rfl⟩
  · intro d hd hne
    exact updateFirstStation_mem_of_ne s.stations sid (mkStationSetMap e) d hd hne

/- Concrete input for the amended C5. -/

def c5GoodEntity : Entity :=
  { id := some "s3"
    type := some "EVChargingStation"
    availableCapacity := some { value := some (Val.vint 4), observedAt := some "2025-03-02T00:00:00Z" } }

/-- Witness for the amended C5 at a concrete event carrying only
availableCapacity. -/
theorem c5_only_available_capacity_witness :
    ∃ r, apply_realtime_event { stations := [{ id := "s3" }], sessions := [] }
          { operation := some "update", entity := c5GoodEntity } = some r ∧
      r.stationWrites = [("s3", mkStationSetMap c5GoodEntity)] ∧
      r.msgs = [Msg.stationUpdate "s3"
        { available_capacity := some (Val.vint 4), status := none, instantaneous_power := none
          queue_length := none, observedAt := none }] ∧
      r.stores.sessions = Stores.sessions { stations := [{ id := "s3" }], sessions := [] } ∧
      r.stores.stations = updateFirstStation (Stores.stations { stations := [{ id := "s3" }], sessions := [] })
          "s3" (mkStationSetMap c5GoodEntity) ∧
      (∀ d : StationDoc,
        (applySetMap d (mkStationSetMap c5GoodEntity)).id = d.id ∧
        (applySetMap d (mkStationSetMap c5GoodEntity)).available_capacity = some (Val.vint 4) ∧
        (applySetMap d (mkStationSetMap c5GoodEntity)).raw.availableCapacity.value = some (Val.vint 4) ∧
        (applySetMap d (mkStationSetMap c5GoodEntity)).status = d.status ∧
        (applySetMap d (mkStationSetMap c5GoodEntity)).instantaneous_power = d.instantaneous_power ∧
        (applySetMap d (mkStationSetMap c5GoodEntity)).queue_length = d.queue_length ∧
        (applySetMap d (mkStationSetMap c5GoodEntity)).rest = d.rest ∧
        (applySetMap d (mkStationSetMap c5GoodEntity)).raw.status = d.raw.status ∧
        (applySetMap d (mkStationSetMap c5GoodEntity)).raw.instantaneousPower = d.raw.instantaneousPower ∧
        (applySetMap d (mkStationSetMap c5GoodEntity)).raw.queueLength = d.raw.queueLength) ∧
      (∀ d ∈ Stores.stations { stations := [{ id := "s3" }], sessions := [] }, d.id ≠ "s3" →
        d ∈ r.stores.stations) :=
  c5_only_available_capacity { stations := [{ id := "s3" }], sessions := [] } c5GoodEntity "s3"
    { value := some (Val.vint 4), observedAt := some "2025-03-02T00:00:00Z" } (Val.vint 4)
    rfl rfl (by decide) rfl rfl rfl rfl rfl rfl

/- Concrete input for claim C2: a session-upsert event that is complete
except for the optional-per-the-spec `startDateTime` attribute. -/

def c2BadEntity : Entity :=
  { id := some "sess1"
    type := some "EVChargingSession"
    refFeatureOfInterest := some { object := some "st1" }
    endDateTime := some { value := some (Val.vstr "2025-01-01T01:00:00+07:00") }
    phenomenonTime := some { value := some (Val.vstr "2025-01-01T00:00:00+07:00") }
    resultTime := some { value := some (Val.vstr "2025-01-01T01:00:00+07:00") }
    vehicleType := some { value := some (Val.vstr "car") }
    powerConsumption := some { value := some (Val.vint 10) }
    amountCollected := some { value := some (Val.vint 100000) }
    taxAmountCollected := some { value := some (Val.vint 10000) } }

/-- Claim C2, counterexample: a session-upsert event lacking the
`startDateTime` attribute does not produce one replace and one broadcast:
`parse_iso(get_property_value(entity, "startDateTime"))` is
`isoparse(None)`, which raises `TypeError` inside `import_session_entity`
(etl.py 116) before any store write, so the event produces zero replaces and
zero broadcasts (and the exception propagates out of
`apply_realtime_event`).  The time-window fields are not optional. -/
theorem c2_missing_start_raises :
    apply_realtime_event { stations := [], sessions := [] }
        { operation := some "upsert", entity := c2BadEntity } = none := by decide

/-- Claim C2 as amended: a session-upsert event whose id, station reference,
four datetime attributes (with parseable values) and three numeric
energy/amount attributes are all present performs exactly one store replace
of the referenced session and exactly one `session_upsert` broadcast,
regardless of which of the nullable optional fields (vehicle type, charging
unit, transaction info, sensor reference) are present; the station
collection is untouched. -/
theorem c2_session_upsert_one_replace_one_broadcast (s : Stores) (e : Entity)
    (sid stId t1 t2 t3 t4 : String) (pw am tax : Val)
    (htype : e.type = some "EVChargingSession") (hid : e.id = some sid)
    (href : e.refFeatureOfInterest.bind (fun r => r.object) = some stId)
    (h1 : parse_iso (get_property_value e.startDateTime) = some t1)
    (h2 : parse_iso (get_property_value e.endDateTime) = some t2)
    (h3 : parse_iso (get_property_value e.phenomenonTime) = some t3)
    (h4 : parse_iso (get_property_value e.resultTime) = some t4)
    (hpw : get_property_value e.powerConsumption = some pw)
    (ham : get_property_value e.amountCollected = some am)
    (htax : get_property_value e.taxAmountCollected = some tax) :
    (apply_realtime_event s { operation := some "upsert", entity := e }).map
        (fun r => (r.sessionReplaces, r.msgs.length, r.stationWrites, r.stores.stations)) =
      some ([sid], 1, [], s.stations) := by
  have himp : import_session_entity e s.sessions =
      some
        ({ id := sid
           station_id := stId
           sensor_id := e.refSensor.bind fun r => r.object
           vehicle_type := get_property_value e.vehicleType
           charging_unit_id := get_property_value e.chargingUnitId
           transaction_id := get_property_value e.transactionId
           transaction_type := get_property_value e.transactionType
           start_date_time := t1
           end_date_time := t2
           phenomenon_time := t3
           result_time := t4
           power_consumption_kwh := pw
           amount_collected_vnd := am
           tax_amount_collected_vnd := tax
           raw := e },
         replaceOneSession s.sessions
          { id := sid
            station_id := stId
            sensor_id := e.refSensor.bind fun r => r.object
            vehicle_type := get_property_value e.vehicleType
            charging_unit_id := get_property_value e.chargingUnitId
            transaction_id := get_property_value e.transactionId
            transaction_type := get_property_value e.transactionType
            start_date_time := t1
            end_date_time := t2
            phenomenon_time := t3
            result_time := t4
            power_consumption_kwh := pw
            amount_collected_vnd := am
            tax_amount_collected_vnd := tax
            raw := e }) := by
    unfold import_session_entity
    rw [hid, h1, h2, h3, h4, href, hpw, ham, htax]
  unfold apply_realtime_event
  rw [if_neg (by rintro ⟨-, hb⟩; simp at hb),
    if_pos ⟨htype, rfl⟩, himp]
  rfl

/- Concrete input for the amended C2: a complete session-upsert event with
the nullable optional fields absent. -/

def c2GoodEntity : Entity :=
  { id := some "sess2"
    type := some "EVChargingSession"
    refFeatureOfInterest := some { object := some "st1" }
    startDateTime := some { value := some (Val.vstr "2025-01-01T00:00:00+07:00") }
    endDateTime := some { value := some (Val.vstr "2025-01-01T01:00:00+07:00") }
    phenomenonTime := some { value := some (Val.vstr "2025-01-01T00:00:00+07:00") }
    resultTime := some { value := some (Val.vstr "2025-01-01T01:00:00+07:00") }
    powerConsumption := some { value := some (Val.vint 12) }
    amountCollected := some { value := some (Val.vint 150000) }
    taxAmountCollected := some { value := some (Val.vint 15000) } }

/-- Witness for the amended C2 at a concrete complete session-upsert event
whose optional fields are absent. -/
theorem c2_session_upsert_witness :
    (apply_realtime_event { stations := [{ id := "st1" }], sessions := [] }
          { operation := some "upsert", entity := c2GoodEntity }).map
        (fun r => (r.sessionReplaces, r.msgs.length, r.stationWrites, r.stores.stations)) =
      some (["sess2"], 1, [],
        Stores.stations { stations := [{ id := "st1" }], sessions := [] }) :=
  c2_session_upsert_one_replace_one_broadcast
    { stations := [{ id := "st1" }], sessions := [] } c2GoodEntity
    "sess2" "st1" "2025-01-01T00:00:00+07:00" "2025-01-01T01:00:00+07:00"
    "2025-01-01T00:00:00+07:00" "2025-01-01T01:00:00+07:00"
    (Val.vint 12) (Val.vint 150000) (Val.vint 15000)
    rfl rfl rfl rfl rfl rfl rfl rfl rfl rfl

/-! Connection registry (`ConnectionManager`, main.py 208-228).  Subscriber
connections are modelled over an arbitrary type with decidable equality (the
Python code only compares connections by identity).  `sendOk c = false`
models `websocket.send_json` raising for subscriber `c` during this
broadcast pass. -/

/-- Subscribers that receive the message during the broadcast loop
(main.py 222-226): exactly those whose send does not raise; the loop
continues past failures. -/
def broadcastReceived {Conn : Type} (active : List Conn) (sendOk : Conn → Bool) :
    List Conn :=
  active.filter sendOk

/-- The `stale` list built by the broadcast loop: the subscribers whose send
raised, in iteration order. -/
def broadcastStale {Conn : Type} (active : List Conn) (sendOk : Conn → Bool) :
    List Conn :=
  active.filter fun c => !sendOk c

/-- Embeds `ConnectionManager.disconnect` (main.py 216-218): idempotent removal of
the first occurrence. -/
def disconnect {Conn : Type} [DecidableEq Conn] (active : List Conn) (c : Conn) :
    List Conn :=
  if c ∈ active then active.erase c else active

/-- Embeds `ConnectionManager.broadcast` (main.py 220-228): the registry after one
broadcast pass — every subscriber whose send raised is disconnected once the
pass completes. -/
def broadcast {Conn : Type} [DecidableEq Conn] (active : List Conn)
    (sendOk : Conn → Bool) : List Conn :=
  (broadcastStale active sendOk).foldl disconnect active

/-- When exactly one registered subscriber fails, the stale list is exactly
that subscriber. -/
theorem broadcastStale_single {Conn : Type} (active : List Conn)
    (sendOk : Conn → Bool) (c0 : Conn) (hN : active.Nodup) (hmem : c0 ∈ active)
    (hfail : sendOk c0 = false) (hrest : ∀ c ∈ active, c ≠ c0 → sendOk c = true) :
    broadcastStale active sendOk = [c0] := by
  unfold broadcastStale
  induction active with
  | nil => exact absurd hmem (List.not_mem_nil c0)
  | cons x xs ih =>
    rcases List.nodup_cons.mp hN with ⟨hx, hxs⟩
    rcases List.mem_cons.mp hmem with h | h
    · subst h
      rw [List.filter_cons_of_pos (by simp [hfail])]
      congr 1
      refine List.filter_eq_nil_iff.mpr fun c hc => ?_
      have : c ≠ c0 := fun hcc => hx (hcc ▸ hc)
      simp [hrest c (List.mem_cons_of_mem _ hc) this]
    · have hxne : x ≠ c0 := fun hxc => hx (hxc ▸ h)
      rw [List.filter_cons_of_neg
        (by simp [hrest x (List.mem_cons_self _ _) hxne])]
      exact ih hxs h fun c hc hne => hrest c (List.mem_cons_of_mem _ hc) hne

/-- Claim C3: broadcasting to N registered subscribers where exactly one
subscriber's send fails leaves exactly the other N-1 registered (the
registry equals the original list with the failing subscriber erased),
every one of those N-1 received the message — including subscribers later
in the iteration than the failing one — and the failing subscriber is no
longer registered. -/
theorem c3_broadcast_one_failure {Conn : Type} [DecidableEq Conn]
    (active : List Conn) (sendOk : Conn → Bool) (c0 : Conn)
    (hN : active.Nodup) (hmem : c0 ∈ active) (hfail : sendOk c0 = false)
    (hrest : ∀ c ∈ active, c ≠ c0 → sendOk c = true) :
    broadcast active sendOk = active.erase c0 ∧
    (broadcast active sendOk).length = active.length - 1 ∧
    c0 ∉ broadcast active sendOk ∧
    (∀ c ∈ active, c ≠ c0 →
      c ∈ broadcast active sendOk ∧ c ∈ broadcastReceived active sendOk) := by
  have hb : broadcast active sendOk = active.erase c0 := by
    unfold broadcast
    rw [broadcastStale_single active sendOk c0 hN hmem hfail hrest]
    show disconnect active c0 = active.erase c0
    rw [disconnect, if_pos hmem]
  refine ⟨hb, ?_, ?_, ?_⟩
  · rw [hb]; exact List.length_erase_of_mem hmem
  · rw [hb]; exact hN.not_mem_erase
  · intro c hc hne
    refine ⟨?_, ?_⟩
    · rw [hb]; exact (List.mem_erase_of_ne hne).mpr hc
    · exact List.mem_filter.mpr ⟨hc, hrest c hc hne⟩

/-- Witness for C3: three subscribers, the middle one fails; afterwards the
other two remain registered and both received the message. -/
theorem c3_broadcast_one_failure_witness :
    broadcast ["a", "b", "c"] (fun c => !(c == "b")) = (["a", "b", "c"].erase "b") ∧
    (broadcast ["a", "b", "c"] (fun c => !(c == "b"))).length = (["a", "b", "c"] : List String).length - 1 ∧
    "b" ∉ broadcast ["a", "b", "c"] (fun c => !(c == "b")) ∧
    (∀ c ∈ ["a", "b", "c"], c ≠ "b" →
      c ∈ broadcast ["a", "b", "c"] (fun c => !(c == "b")) ∧
      c ∈ broadcastReceived ["a", "b", "c"] (fun c => !(c == "b"))) :=
  c3_broadcast_one_failure ["a", "b", "c"] (fun c => !(c == "b")) "b"
    (by decide) (by decide) (by decide) (by decide)

/-! Geo proximity filter (`_haversine_km`, main.py 1103-1112, and
`get_stations_near`, main.py 651-671).  Coordinates are real numbers; the
floating-point evaluation of the Python runtime is idealized as exact real
arithmetic. -/

/-- Python `math.radians`. -/
noncomputable def radians (x : ℝ) : ℝ := x * Real.pi / 180

/-- Embeds `_haversine_km` (main.py 1103-1112): great-circle distance with Earth
radius 6371 km via the haversine formula. -/
noncomputable def _haversine_km (lat1 lon1 lat2 lon2 : ℝ) : ℝ :=
  let r : ℝ := 6371.0
  let dlat := radians (lat2 - lat1)
  let dlon := radians (lon2 - lon1)
  let a :=
    Real.sin (dlat / 2) ^ 2 +
      Real.cos (radians lat1) * Real.cos (radians lat2) * Real.sin (dlon / 2) ^ 2
  let c := 2 * Real.arcsin (Real.sqrt a)
  r * c

/-- A stored station document as read by `get_stations_near`: only the
`location.coordinates` entry matters; `none` models a document whose
location is missing or whose coordinates are not a list. -/
structure GeoStationDoc where
  id : String
  coordinates : Option (List ℝ) := none

/-- The per-document test of the loop in `get_stations_near` (main.py
661-669): skip documents without a two-element coordinate list
(`[longitude, latitude]`), otherwise keep those within `radius_km` of the
reference point. -/
noncomputable def nearPred (lat lng radius : ℝ) (d : GeoStationDoc) : Bool :=
  match d.coordinates with
  | some [lon2, lat2] => decide (_haversine_km lat lng lat2 lon2 ≤ radius)
  | _ => false

/-- The `candidates` list of `get_stations_near`: a linear scan keeping the
stations within the radius, in store order. -/
noncomputable def nearCandidates (docs : List GeoStationDoc) (lat lng radius : ℝ) :
    List GeoStationDoc :=
  docs.filter (nearPred lat lng radius)

/-- Embeds `get_stations_near` (main.py 651-671): the candidates truncated to the
caller-supplied limit (`candidates[:limit]`). -/
noncomputable def get_stations_near (docs : List GeoStationDoc) (lat lng radius : ℝ)
    (limit : ℕ) : List GeoStationDoc :=
  (nearCandidates docs lat lng radius).take limit

/-- The per-document test, spelled out for a document with a valid
two-element coordinate list. -/
theorem nearPred_eq_true_iff (lat lng radius : ℝ) (d : GeoStationDoc)
    (lon2 lat2 : ℝ) (hc : d.coordinates = some [lon2, lat2]) :
    nearPred lat lng radius d = true ↔ _haversine_km lat lng lat2 lon2 ≤ radius := by
  rw [nearPred, hc]
  exact decide_eq_true_iff

/-- Haversine distance from the reference point (10, 20) to a station at
latitude 10, longitude 20 is zero. -/
theorem haversine_same_point : _haversine_km 10 20 10 20 = 0 := by
  unfold _haversine_km radians
  norm_num [Real.arcsin_zero, Real.sqrt_zero]

/-- Expanded form of the distance from reference (10, 20) to a station at
(0, 0). -/
theorem haversine_far_eq :
    _haversine_km 10 20 0 0 =
      6371 * (2 * Real.arcsin (Real.sqrt
        (Real.sin (Real.pi / 36) ^ 2 +
          Real.cos (Real.pi / 18) * Real.sin (Real.pi / 18) ^ 2))) := by
  unfold _haversine_km radians
  dsimp only
  rw [show ((0 : ℝ) - 10) * Real.pi / 180 / 2 = -(Real.pi / 36) by ring,
    show ((0 : ℝ) - 20) * Real.pi / 180 / 2 = -(Real.pi / 18) by ring,
    show (10 : ℝ) * Real.pi / 180 = Real.pi / 18 by ring,
    show (0 : ℝ) * Real.pi / 180 = 0 by ring,
    Real.sin_neg, Real.cos_zero]
  norm_num

/-- The station at (0, 0) is farther than 1 km from the reference (10, 20)
(the true distance is about 2,500 km; a crude lower bound suffices). -/
theorem haversine_far_gt_one : 1 < _haversine_km 10 20 0 0 := by
  rw [haversine_far_eq]
  have hπ3 : (3 : ℝ) < Real.pi := Real.pi_gt_three
  have hπ4 : Real.pi < 4 := Real.pi_lt_four
  have hs1 : (1 : ℝ) / 18 ≤ Real.sin (Real.pi / 36) := by
    have h := Real.mul_le_sin (x := Real.pi / 36) (by positivity) (by linarith)
    have he : 2 / Real.pi * (Real.pi / 36) = 1 / 18 := by
      field_simp
      norm_num
    rw [he] at h
    exact h
  have hc1 : 0 ≤ Real.cos (Real.pi / 18) :=
    Real.cos_nonneg_of_mem_Icc ⟨by linarith, by linarith⟩
  have hA_lb : ((1 : ℝ) / 18) ^ 2 ≤ Real.sin (Real.pi / 36) ^ 2 +
      Real.cos (Real.pi / 18) * Real.sin (Real.pi / 18) ^ 2 := by
    have := mul_nonneg hc1 (sq_nonneg (Real.sin (Real.pi / 18)))
    nlinarith
  have hA_ub : Real.sin (Real.pi / 36) ^ 2 +
      Real.cos (Real.pi / 18) * Real.sin (Real.pi / 18) ^ 2 ≤ 1 := by
    have hb1 : Real.sin (Real.pi / 36) ^ 2 ≤ (Real.pi / 36) ^ 2 := Real.sin_sq_le_sq
    have hb2 : Real.sin (Real.pi / 18) ^ 2 ≤ (Real.pi / 18) ^ 2 := Real.sin_sq_le_sq
    have hc1' : Real.cos (Real.pi / 18) ≤ 1 := Real.cos_le_one _
    have h3 : Real.cos (Real.pi / 18) * Real.sin (Real.pi / 18) ^ 2 ≤
        Real.sin (Real.pi / 18) ^ 2 :=
      mul_le_of_le_one_left (sq_nonneg _) hc1'
    have hπsq : Real.pi ^ 2 < 16 := by nlinarith
    nlinarith [hb1, hb2, h3, hπsq]
  have hsq_lb : (1 : ℝ) / 18 ≤ Real.sqrt (Real.sin (Real.pi / 36) ^ 2 +
      Real.cos (Real.pi / 18) * Real.sin (Real.pi / 18) ^ 2) :=
    Real.le_sqrt_of_sq_le hA_lb
  have hsq_ub : Real.sqrt (Real.sin (Real.pi / 36) ^ 2 +
      Real.cos (Real.pi / 18) * Real.sin (Real.pi / 18) ^ 2) ≤ 1 := by
    have := Real.sqrt_le_sqrt hA_ub
    rwa [Real.sqrt_one] at this
  have harc : Real.sqrt (Real.sin (Real.pi / 36) ^ 2 +
        Real.cos (Real.pi / 18) * Real.sin (Real.pi / 18) ^ 2) ≤
      Real.arcsin (Real.sqrt (Real.sin (Real.pi / 36) ^ 2 +
        Real.cos (Real.pi / 18) * Real.sin (Real.pi / 18) ^ 2)) := by
    have hy : 0 < Real.arcsin (Real.sqrt (Real.sin (Real.pi / 36) ^ 2 +
        Real.cos (Real.pi / 18) * Real.sin (Real.pi / 18) ^ 2)) :=
      Real.arcsin_pos.mpr (by linarith)
    have hsin := Real.sin_arcsin
      (x := Real.sqrt (Real.sin (Real.pi / 36) ^ 2 +
        Real.cos (Real.pi / 18) * Real.sin (Real.pi / 18) ^ 2))
      (by linarith) hsq_ub
    have := Real.sin_lt hy
    rw [hsin] at this
    linarith
  linarith

/- Concrete stations of the spec's example: coordinates are stored as
`[longitude, latitude]`. -/

def c6Near : GeoStationDoc := { id := "station-near", coordinates := some [20, 10] }

def c6Far : GeoStationDoc := { id := "station-far", coordinates := some [0, 0] }

/-- Claim C6: a stored station with a valid two-element coordinate list is a
proximity candidate exactly when its haversine distance from the reference
point is at most the radius; one beyond the radius is never in the result;
the result is the candidate list truncated to the caller-supplied limit.
In particular, for reference (10, 20) and radius 1 km, a station at
latitude 10, longitude 20 is included and a station at (0, 0) is excluded. -/
theorem c6_stations_near (docs : List GeoStationDoc) (lat lng radius : ℝ)
    (limit : ℕ) (d : GeoStationDoc) (lon2 lat2 : ℝ)
    (hd : d ∈ docs) (hc : d.coordinates = some [lon2, lat2]) :
    (_haversine_km lat lng lat2 lon2 ≤ radius →
      d ∈ nearCandidates docs lat lng radius) ∧
    (radius < _haversine_km lat lng lat2 lon2 →
      d ∉ get_stations_near docs lat lng radius limit) ∧
    get_stations_near docs lat lng radius limit =
      (nearCandidates docs lat lng radius).take limit ∧
    c6Near ∈ get_stations_near [c6Near, c6Far] 10 20 1 20 ∧
    c6Far ∉ get_stations_near [c6Near, c6Far] 10 20 1 20 := by
  have hnear : nearPred 10 20 1 c6Near = true :=
    (nearPred_eq_true_iff 10 20 1 c6Near 20 10 rfl).mpr
      (by rw [haversine_same_point]; norm_num)
  have hfar : nearPred 10 20 1 c6Far = false := by
    rw [nearPred]
    show decide (_haversine_km 10 20 0 0 ≤ 1) = false
    exact decide_eq_false (not_le.mpr haversine_far_gt_one)
  have hres : get_stations_near [c6Near, c6Far] 10 20 1 20 = [c6Near] := by
    unfold get_stations_near nearCandidates
    rw [List.filter_cons_of_pos hnear, List.filter_cons_of_neg (by simp [hfar]),
      List.filter_nil]
    rfl
  refine ⟨?_, ?_, rfl, ?_, ?_⟩
  · intro h
    exact List.mem_filter.mpr ⟨hd, (nearPred_eq_true_iff lat lng radius d lon2 lat2 hc).mpr h⟩
  · intro h hmem
    have hcand : d ∈ nearCandidates docs lat lng radius :=
      List.take_subset _ _ hmem
    have := (List.mem_filter.mp hcand).2
    rw [nearPred_eq_true_iff lat lng radius d lon2 lat2 hc] at this
    exact absurd this (not_le.mpr h)
  · rw [hres]; exact List.mem_singleton_self _
  · rw [hres]
    intro hmem
    have hEq : c6Far = c6Near := List.mem_singleton.mp hmem
    have : c6Far.id = c6Near.id := congrArg GeoStationDoc.id hEq
    rw [c6Far, c6Near] at this
    exact absurd this (by decide)

/-- Witness for C6 at the concrete stations of the spec's example. -/
theorem c6_stations_near_witness :
    (_haversine_km 10 20 10 20 ≤ 1 →
      c6Near ∈ nearCandidates [c6Near, c6Far] 10 20 1) ∧
    ((1 : ℝ) < _haversine_km 10 20 10 20 →
      c6Near ∉ get_stations_near [c6Near, c6Far] 10 20 1 20) ∧
    get_stations_near [c6Near, c6Far] 10 20 1 20 =
      (nearCandidates [c6Near, c6Far] 10 20 1).take 20 ∧
    c6Near ∈ get_stations_near [c6Near, c6Far] 10 20 1 20 ∧
    c6Far ∉ get_stations_near [c6Near, c6Far] 10 20 1 20 :=
  c6_stations_near [c6Near, c6Far] 10 20 1 20 c6Near 20 10
    (List.mem_cons_self _ _) rfl

/-! Entity mapper for the station dataset (`import_station_entity`, etl.py
40-96, and `_doc_to_ngsi_entity`, main.py 394-404).  Station entities are
modelled with one typed field per recognized attribute (the JSON dict's
recognized keys); `none` models an absent or non-dict attribute. -/

/-- A linked-data property attribute `{value?, observedAt?}` with a typed
value. -/
structure PropAttr (α : Type) where
  value : Option α := none
  observedAt : Option String := none
deriving DecidableEq

/-- The `address.value` object (`models.Address`). -/
structure AddressVal where
  streetAddress : Option String := none
  addressLocality : Option String := none
  postalCode : Option String := none
  addressCountry : Option String := none
  sameAs : Option String := none
deriving DecidableEq

/-- The `location.value` object as read by the importer. -/
structure LocationVal where
  type : Option String := none
  coordinates : Option (List Val) := none
deriving DecidableEq

/-- A station linked-data entity: identity, type, optional `@context`, and
the recognized attributes read by `import_station_entity`. -/
structure StationEntity where
  id : String
  type : String
  context : Option Val := none
  name : Option (PropAttr Val) := none
  status : Option (PropAttr Val) := none
  address : Option (PropAttr AddressVal) := none
  location : Option (PropAttr LocationVal) := none
  capacity : Option (PropAttr Val) := none
  socketNumber : Option (PropAttr Val) := none
  availableCapacity : Option (PropAttr Val) := none
  instantaneousPower : Option (PropAttr Val) := none
  queueLength : Option (PropAttr Val) := none
  allowedVehicleType : Option (PropAttr (List Val)) := none
  network : Option (PropAttr Val) := none
  operator : Option (PropAttr Val) := none
  amperage : Option (PropAttr Val) := none
  voltage : Option (PropAttr Val) := none
  chargeType : Option (PropAttr (List Val)) := none
  acceptedPaymentMethod : Option (PropAttr (List Val)) := none
  openingHours : Option (PropAttr Val) := none
  socketType : Option (PropAttr (List Val)) := none
deriving DecidableEq

/-- Embeds `get_property_value` (etl.py 23-27) for a typed attribute. -/
def getPropValue {α : Type} (attr : Option (PropAttr α)) : Option α :=
  attr.bind fun p => p.value

/-- Embeds `models.GeoPoint`; `type` and `coordinates` are required. -/
structure GeoPointDoc where
  type : String
  coordinates : List Val
deriving DecidableEq

/-- A flattened station document (`StationInDB.model_dump()` plus `_id`,
etl.py 69-96).  `models.py` makes `name`, `status` and `location` required;
list fields default to `[]`; the original linked-data entity is retained in
`raw`. -/
structure StationFlatDoc where
  id : String
  name : Val
  status : Val
  address : Option AddressVal := none
  location : GeoPointDoc
  capacity : Option Val := none
  socket_number : Option Val := none
  available_capacity : Option Val := none
  allowed_vehicle_types : List Val := []
  network : Option Val := none
  operator : Option Val := none
  amperage : Option Val := none
  voltage : Option Val := none
  charge_types : List Val := []
  accepted_payment_methods : List Val := []
  opening_hours : Option Val := none
  socket_types : List Val := []
  instantaneous_power : Option Val := none
  queue_length : Option Val := none
  raw : StationEntity
deriving DecidableEq

/-- Embeds `import_station_entity` (etl.py 40-96): flatten a station entity into
the internal document, defaulting absent attributes to null / `Point` /
empty list, and retain the original entity verbatim in `raw`.  The pydantic
model makes `name` and `status` required, so a missing value there raises
`ValidationError` (`none`); the resulting document is what
`replace_one(..., upsert=True)` stores (the collection itself is not
modelled here — the claim is about the document). -/
def import_station_entity (e : StationEntity) : Option StationFlatDoc :=
  match getPropValue e.name, getPropValue e.status with
  | some nm, some st =>
    some
      { id := e.id
        name := nm
        status := st
        address := e.address.bind fun p => p.value
        location :=
          { type := (((e.location.bind fun p => p.value).bind fun l => l.type).getD "Point")
            coordinates :=
              (((e.location.bind fun p => p.value).bind fun l => l.coordinates).getD []) }
        capacity := getPropValue e.capacity
        socket_number := getPropValue e.socketNumber
        available_capacity := getPropValue e.availableCapacity
        allowed_vehicle_types := (getPropValue e.allowedVehicleType).getD []
        network := getPropValue e.network
        operator := getPropValue e.operator
        amperage := getPropValue e.amperage
        voltage := getPropValue e.voltage
        charge_types := (getPropValue e.chargeType).getD []
        accepted_payment_methods := (getPropValue e.acceptedPaymentMethod).getD []
        opening_hours := getPropValue e.openingHours
        socket_types := (getPropValue e.socketType).getD []
        instantaneous_power := getPropValue e.instantaneousPower
        queue_length := getPropValue e.queueLength
        raw := e }
  | _, _ => none

/-- Embeds `_doc_to_ngsi_entity` (main.py 394-404) on a document produced by
`import_station_entity`: such a document always retains the original entity
as a dict in `raw`, so the function returns it verbatim, injecting the
global link context only when the entity carries none (the non-dict
fallback branch that synthesizes a flat representation is unreachable for
these documents). -/
def _doc_to_ngsi_entity (doc : StationFlatDoc) (ctx : Val) : StationEntity :=
  match doc.raw.context with
  | some _ => doc.raw
  | none => { doc.raw with context := some ctx }

/-- Claim C7: flattening a station linked-data entity and re-synthesizing a
linked-data representation from the flattened document yields the original
entity with at most the global link context injected — in particular the
identity, the type, and the values of all recognized attributes are
preserved. -/
theorem c7_station_roundtrip (e : StationEntity) (ctx : Val) (doc : StationFlatDoc)
    (h : import_station_entity e = some doc) :
    _doc_to_ngsi_entity doc ctx = { e with context := some (e.context.getD ctx) } ∧
    (_doc_to_ngsi_entity doc ctx).id = e.id ∧
    (_doc_to_ngsi_entity doc ctx).type = e.type ∧
    getPropValue (_doc_to_ngsi_entity doc ctx).name = getPropValue e.name ∧
    getPropValue (_doc_to_ngsi_entity doc ctx).status = getPropValue e.status ∧
    getPropValue (_doc_to_ngsi_entity doc ctx).availableCapacity =
      getPropValue e.availableCapacity ∧
    getPropValue (_doc_to_ngsi_entity doc ctx).location = getPropValue e.location ∧
    getPropValue (_doc_to_ngsi_entity doc ctx).socketType = getPropValue e.socketType := by
  have hraw : doc.raw = e := by
    unfold import_station_entity at h
    cases hn : getPropValue e.name with
    | none => rw [hn] at h; simp at h
    | some nm =>
      cases hs : getPropValue e.status with
      | none => rw [hn, hs] at h; simp at h
      | some st =>
        rw [hn, hs] at h
        cases h
        rfl
  have hmain : _doc_to_ngsi_entity doc ctx = { e with context := some (e.context.getD ctx) } := by
    unfold _doc_to_ngsi_entity
    rw [hraw]
    clear h hraw
    rcases e with ⟨eid, ety, ectx, en, es, ea, el, ec, esn, eac, eip, eql, eavt, enw,
      eop, eam, evo, ect, eapm, eoh, est⟩
    cases ectx with
    | some c => rfl
    | none => rfl
  rw [hmain]
  exact ⟨rfl, rfl, rfl, rfl, rfl, rfl, rfl, rfl⟩

/- Concrete input for C7. -/

def c7Entity : StationEntity :=
  { id := "urn:ngsi-ld:EVChargingStation:001"
    type := "EVChargingStation"
    name := some { value := some (Val.vstr "Station 1") }
    status := some { value := some (Val.vstr "active") }
    availableCapacity := some { value := some (Val.vint 3) }
    location := some { value := some ({ type := some "Point", coordinates := some [Val.vint 106, Val.vint 10] } : LocationVal) }
    socketType := some { value := some [Val.vstr "Type2"] } }

def c7Doc : StationFlatDoc :=
  { id := "urn:ngsi-ld:EVChargingStation:001"
    name := Val.vstr "Station 1"
    status := Val.vstr "active"
    location := { type := "Point", coordinates := [Val.vint 106, Val.vint 10] }
    available_capacity := some (Val.vint 3)
    socket_types := [Val.vstr "Type2"]
    raw := c7Entity }

/-- Witness for C7 at a concrete station entity without a link context. -/
theorem c7_station_roundtrip_witness :
    _doc_to_ngsi_entity c7Doc (Val.vstr "ctx") =
      { c7Entity with context := some (c7Entity.context.getD (Val.vstr "ctx")) } ∧
    (_doc_to_ngsi_entity c7Doc (Val.vstr "ctx")).id = c7Entity.id ∧
    (_doc_to_ngsi_entity c7Doc (Val.vstr "ctx")).type = c7Entity.type ∧
    getPropValue (_doc_to_ngsi_entity c7Doc (Val.vstr "ctx")).name = getPropValue c7Entity.name ∧
    getPropValue (_doc_to_ngsi_entity c7Doc (Val.vstr "ctx")).status = getPropValue c7Entity.status ∧
    getPropValue (_doc_to_ngsi_entity c7Doc (Val.vstr "ctx")).availableCapacity =
      getPropValue c7Entity.availableCapacity ∧
    getPropValue (_doc_to_ngsi_entity c7Doc (Val.vstr "ctx")).location = getPropValue c7Entity.location ∧
    getPropValue (_doc_to_ngsi_entity c7Doc (Val.vstr "ctx")).socketType = getPropValue c7Entity.socketType :=
  c7_station_roundtrip c7Entity (Val.vstr "ctx") c7Doc (by rfl)

/-! Auth: registration with OTP (main.py 69-156, 244-275) and admin user
mutations (main.py 72-87, 1763-1867).  User and pending-registration ids
are modelled as strings: `str(doc["_id"])` is the identity the code
compares, and `_find_user_by_id`'s ObjectId branch plus its string-`_id`
fallback amount to one lookup by that string id.  Timestamps are natural
numbers. -/

/-- Embeds `OTP_EXPIRATION_SECONDS` (main.py 66). -/
def OTP_EXPIRATION_SECONDS : Nat := 5 * 60

/-- Embeds `_normalize_email` (main.py 69-70). -/
def _normalize_email (e : String) : String := e.trim.toLower

/-- A stored user document (the fields the verified handlers touch). -/
structure UserDoc where
  id : String
  username : String
  email : Option String := none
  email_normalized : Option String := none
  name : Option String := none
  role : String := "citizen"
  is_locked : Bool := false
  updated_at : Option Nat := none
deriving DecidableEq

/-- A pending-registration document (`_store_pending_registration`,
main.py 119-139). -/
structure PendingDoc where
  id : String
  username : String
  password : String
  email : String
  email_normalized : String
  name : Option String := none
  role : String := "citizen"
  otp : String
  created_at : Nat := 0
  expires_at : Option Nat := none
deriving DecidableEq

/-- The registration request body (`models.UserRegister`). -/
structure UserRegister where
  username : String
  password : String
  email : String
  name : Option String := none
  role : String := "citizen"
deriving DecidableEq

/-- The case-insensitive anchored regex match of `_ensure_email_available`
(main.py 94-96), modelled as case-insensitive string equality. -/
def emailMatches (stored : Option String) (email : String) : Bool :=
  match stored with
  | some s => s.toLower == email.toLower
  | none => false

/-- Embeds `_ensure_email_available` (main.py 89-108): `true` when no `HTTPException`
is raised — no existing user has the email, and any pending registration
with the email belongs to the same username. -/
def _ensure_email_available (users : List UserDoc) (pending : List PendingDoc)
    (email username : String) : Bool :=
  match users.find? (fun u => emailMatches u.email email) with
  | some _ => false
  | none =>
    match pending.find? (fun p => emailMatches (some p.email) email) with
    | some p => p.username == username
    | none => true

/-- The `$set` document of `_store_pending_registration` (main.py 122-138),
applied at document id `pid`. -/
def storePendingFields (pid : String) (reg : UserRegister) (otp : String)
    (now : Nat) : PendingDoc :=
  { id := pid
    username := reg.username
    password := reg.password
    email := reg.email
    email_normalized := _normalize_email reg.email
    name := reg.name
    role := reg.role
    otp := otp
    created_at := now
    expires_at := some (now + OTP_EXPIRATION_SECONDS) }

/-- Embeds `_store_pending_registration` (main.py 119-139):
`update_one({"username": ...}, {"$set": ...}, upsert=True)` — overwrite the
first document with the username (keeping its `_id`), or insert a fresh
document (`freshId` models the generated ObjectId). -/
def _store_pending_registration : List PendingDoc → UserRegister → String → Nat →
    String → List PendingDoc
  | [], reg, otp, now, freshId => [storePendingFields freshId reg otp now]
  | p :: ps, reg, otp, now, freshId =>
    if p.username = reg.username then storePendingFields p.id reg otp now :: ps
    else p :: _store_pending_registration ps reg otp now freshId

/-- Outcome of the `register` handler. -/
inductive RegOutcome where
  | badRequest
  | serverError
  | ok (expiresIn : Nat)
deriving DecidableEq

/-- Embeds `register` (main.py 244-275): reject a taken username, an invalid role or
an unavailable email (client errors); otherwise store the pending
registration, then dispatch the OTP email — a failed dispatch surfaces as a
server error after the pending record was already stored.  `otp`, `now` and
`freshId` model the generated OTP, the clock and the generated document id;
`emailSendOk` models the outcome of the email collaborator. -/
def register (users : List UserDoc) (pending : List PendingDoc) (reg : UserRegister)
    (otp : String) (now : Nat) (freshId : String) (emailSendOk : Bool) :
    List PendingDoc × RegOutcome :=
  if (users.find? (fun u => u.username == reg.username)).isSome then
    (pending, .badRequest)
  else if reg.role ∉ (["citizen", "manager", "admin"] : List String) then
    (pending, .badRequest)
  else if ¬ _ensure_email_available users pending reg.email reg.username then
    (pending, .badRequest)
  else
    let pending2 := _store_pending_registration pending reg otp now freshId
    if emailSendOk then (pending2, .ok OTP_EXPIRATION_SECONDS)
    else (pending2, .serverError)

/-- The stored record is in the upserted collection. -/
theorem store_pending_mem (pending : List PendingDoc) (reg : UserRegister)
    (otp : String) (now : Nat) (freshId : String) :
    ∃ p ∈ _store_pending_registration pending reg otp now freshId,
      p.username = reg.username ∧ p.otp = otp ∧
      p.expires_at = some (now + OTP_EXPIRATION_SECONDS) := by
  induction pending with
  | nil =>
    exact ⟨storePendingFields freshId reg otp now, List.mem_singleton_self _,
      rfl, rfl, rfl⟩
  | cons q qs ih =>
    rw [_store_pending_registration]
    split
    · exact ⟨storePendingFields q.id reg otp now, List.mem_cons_self _ _, rfl, rfl, rfl⟩
    · obtain ⟨p, hp, hprops⟩ := ih
      exact ⟨p, List.mem_cons_of_mem _ hp, hprops⟩

/-- Claim C8: when the pre-checks pass and the OTP email dispatch fails, the
register operation returns a server error, and the pending collection is
exactly the one produced by storing the pending record before dispatch — in
particular a record with this username, this OTP and the full expiry window
remains stored (no rollback), so a retry can go through the same OTP flow. -/
theorem c8_email_failure_keeps_pending (users : List UserDoc)
    (pending : List PendingDoc) (reg : UserRegister) (otp : String) (now : Nat)
    (freshId : String)
    (h1 : users.find? (fun u => u.username == reg.username) = none)
    (h2 : reg.role ∈ (["citizen", "manager", "admin"] : List String))
    (h3 : _ensure_email_available users pending reg.email reg.username = true) :
    register users pending reg otp now freshId false =
      (_store_pending_registration pending reg otp now freshId, RegOutcome.serverError) ∧
    ∃ p ∈ _store_pending_registration pending reg otp now freshId,
      p.username = reg.username ∧ p.otp = otp ∧
      p.expires_at = some (now + OTP_EXPIRATION_SECONDS) := by
  refine ⟨?_, store_pending_mem pending reg otp now freshId⟩
  unfold register
  rw [h1]
  rw [if_neg (by simp), if_neg (by simp [h2]), if_neg (by simp [h3])]
  rfl

/-- Witness for C8: a fresh registration on empty collections with the email
dispatch failing. -/
theorem c8_email_failure_witness :
    register [] [] { username := "alice", password := "pw", email := "alice@example.org" }
        "123456" 1000 "p1" false =
      (_store_pending_registration [] { username := "alice", password := "pw", email := "alice@example.org" }
        "123456" 1000 "p1", RegOutcome.serverError) ∧
    ∃ p ∈ _store_pending_registration [] { username := "alice", password := "pw", email := "alice@example.org" }
        "123456" 1000 "p1",
      p.username = ({ username := "alice", password := "pw", email := "alice@example.org" } : UserRegister).username ∧
      p.otp = "123456" ∧ p.expires_at = some (1000 + OTP_EXPIRATION_SECONDS) :=
  c8_email_failure_keeps_pending [] [] _ "123456" 1000 "p1" rfl (by decide) rfl

/-- Embeds `find_one({"username": username})` on the pending collection. -/
def findPendingByUsername (pending : List PendingDoc) (u : String) : Option PendingDoc :=
  pending.find? fun p => p.username == u

/-- Embeds `delete_one({"_id": pid})`: remove the first document with the id. -/
def deletePendingById : List PendingDoc → String → List PendingDoc
  | [], _ => []
  | p :: ps, pid => if p.id = pid then ps else p :: deletePendingById ps pid

/-- The two client errors of `_validate_pending_registration`: detail
"OTP không hợp lệ" (invalid) and "OTP đã hết hạn" (expired), both HTTP 400. -/
inductive OtpErr where
  | invalidOtp
  | expiredOtp
deriving DecidableEq

/-- Embeds `_validate_pending_registration` (main.py 141-156): a missing record or a
non-matching OTP is rejected as invalid (nothing is written); a matching OTP
on a record whose expiry lies in the past deletes the record and is rejected
as expired; otherwise the record is returned. -/
def _validate_pending_registration (pending : List PendingDoc) (username otp : String)
    (now : Nat) : List PendingDoc × Except OtpErr PendingDoc :=
  match findPendingByUsername pending username with
  | none => (pending, .error .invalidOtp)
  | some p =>
    if p.otp ≠ otp then (pending, .error .invalidOtp)
    else
      match p.expires_at with
      | some t =>
        if t < now then (deletePendingById pending p.id, .error .expiredOtp)
        else (pending, .ok p)
      | none => (pending, .ok p)

/-- Deleting the unique pending record of a username (unique also by id, as
Mongo guarantees for `_id` and the upsert-by-username writer guarantees for
usernames) leaves no record for that username. -/
theorem findPending_after_delete (pending : List PendingDoc) (u : String)
    (p : PendingDoc)
    (hU : pending.filter (fun q => q.username == u) = [p])
    (hI : pending.filter (fun q => q.id == p.id) = [p]) :
    findPendingByUsername (deletePendingById pending p.id) u = none := by
  induction pending with
  | nil => simp at hU
  | cons x xs ih =>
    by_cases hxid : x.id = p.id
    · rw [deletePendingById, if_pos hxid]
      rw [List.filter_cons_of_pos (by simp [hxid])] at hI
      injection hI with hx hxsI
      by_cases hxu : x.username = u
      · rw [List.filter_cons_of_pos (by simp [hxu])] at hU
        injection hU with hx2 hxsU
        rw [findPendingByUsername, List.find?_eq_none]
        intro q hq
        simpa using List.filter_eq_nil_iff.mp hxsU q hq
      · rw [List.filter_cons_of_neg (by simp [hxu])] at hU
        have hp_mem : p ∈ xs := (List.mem_filter.mp (hU ▸ List.mem_singleton_self p)).1
        have hcontra : p ∈ xs.filter (fun q => q.id == p.id) :=
          List.mem_filter.mpr ⟨hp_mem, by simp⟩
        rw [hxsI] at hcontra
        exact absurd hcontra (List.not_mem_nil p)
    · rw [deletePendingById, if_neg hxid]
      rw [List.filter_cons_of_neg (by simp [hxid])] at hI
      by_cases hxu : x.username = u
      · rw [List.filter_cons_of_pos (by simp [hxu])] at hU
        injection hU with hx2 hxsU
        exact absurd (by rw [hx2]) hxid
      · rw [List.filter_cons_of_neg (by simp [hxu])] at hU
        rw [findPendingByUsername, List.find?_cons_of_neg _ (by simp [hxu])]
        exact ih hU hI

/-- Claim C9: on a pending registration whose expiry lies in the past,
verification with the matching OTP fails as expired and deletes the record;
afterwards no record for the username remains, so every subsequent
verification attempt fails as invalid OTP (whatever OTP and time), with the
collection unchanged; verification with a non-matching OTP fails as invalid
OTP without deleting the record. -/
theorem c9_expired_otp_deletes (pending : List PendingDoc) (u : String)
    (p : PendingDoc) (t now : Nat)
    (hfind : findPendingByUsername pending u = some p)
    (hexp : p.expires_at = some t) (ht : t < now)
    (hU : pending.filter (fun q => q.username == u) = [p])
    (hI : pending.filter (fun q => q.id == p.id) = [p]) :
    _validate_pending_registration pending u p.otp now =
      (deletePendingById pending p.id, Except.error OtpErr.expiredOtp) ∧
    findPendingByUsername (deletePendingById pending p.id) u = none ∧
    (∀ otp2 now2,
      _validate_pending_registration (deletePendingById pending p.id) u otp2 now2 =
        (deletePendingById pending p.id, Except.error OtpErr.invalidOtp)) ∧
    (∀ otp2, otp2 ≠ p.otp →
      _validate_pending_registration pending u otp2 now =
        (pending, Except.error OtpErr.invalidOtp)) := by
  have hgone : findPendingByUsername (deletePendingById pending p.id) u = none :=
    findPending_after_delete pending u p hU hI
  refine ⟨?_, hgone, ?_, ?_⟩
  · unfold _validate_pending_registration
    rw [hfind]
    dsimp only
    rw [if_neg (by simp), hexp]
    dsimp only
    rw [if_pos ht]
  · intro otp2 now2
    unfold _validate_pending_registration
    rw [hgone]
  · intro otp2 hne
    unfold _validate_pending_registration
    rw [hfind]
    dsimp only
    rw [if_pos (fun h : p.otp = otp2 => hne h.symm)]

/- Concrete input for C9: one expired pending registration. -/

def c9Pending : PendingDoc :=
  { id := "pid1"
    username := "bob"
    password := "pw"
    email := "bob@example.org"
    email_normalized := "bob@example.org"
    otp := "111222"
    created_at := 0
    expires_at := some 100 }

/-- Witness for C9: the single pending record expired at time 100, verified
at time 200. -/
theorem c9_expired_otp_witness :
    _validate_pending_registration [c9Pending] "bob" c9Pending.otp 200 =
      (deletePendingById [c9Pending] c9Pending.id, Except.error OtpErr.expiredOtp) ∧
    findPendingByUsername (deletePendingById [c9Pending] c9Pending.id) "bob" = none ∧
    (∀ otp2 now2,
      _validate_pending_registration (deletePendingById [c9Pending] c9Pending.id) "bob" otp2 now2 =
        (deletePendingById [c9Pending] c9Pending.id, Except.error OtpErr.invalidOtp)) ∧
    (∀ otp2, otp2 ≠ c9Pending.otp →
      _validate_pending_registration [c9Pending] "bob" otp2 200 =
        ([c9Pending], Except.error OtpErr.invalidOtp)) :=
  c9_expired_otp_deletes [c9Pending] "bob" c9Pending 100 200
    (by decide) (by decide) (by decide) (by decide) (by decide)

/-- Embeds `_find_user_by_id` (main.py 72-87): resolve by id first (the ObjectId
branch and the string-`_id` fallback are one string-id lookup here), then by
username. -/
def _find_user_by_id (users : List UserDoc) (uid : String) : Option UserDoc :=
  match users.find? (fun u => u.id == uid) with
  | some d => some d
  | none => users.find? fun u => u.username == uid

/-- Embeds `update_one({"_id": tid}, {"$set": ...})` on the users collection:
rewrite the first document with the id. -/
def updateFirstUserById : List UserDoc → String → (UserDoc → UserDoc) → List UserDoc
  | [], _, _ => []
  | u :: us, uid, f => if u.id = uid then f u :: us else u :: updateFirstUserById us uid f

/-- Embeds `delete_one({"_id": tid})` on the users collection. -/
def deleteFirstUserById : List UserDoc → String → List UserDoc
  | [], _ => []
  | u :: us, uid => if u.id = uid then us else u :: deleteFirstUserById us uid

/-- The client errors of the three admin user mutations: invalid role (400),
user not found (404), self-targeting (400). -/
inductive AdminErr where
  | invalidRole
  | notFound
  | selfTarget
deriving DecidableEq

/-- Embeds `update_user_role` (main.py 1763-1801): role whitelist, target lookup,
self-check, then a `$set` of role and update timestamp.  The response
shaping after the write is not modelled. -/
def update_user_role (users : List UserDoc) (adminId targetId newRole : String)
    (now : Nat) : List UserDoc × Except AdminErr Unit :=
  if newRole ∉ (["citizen", "manager", "admin"] : List String) then
    (users, .error .invalidRole)
  else
    match _find_user_by_id users targetId with
    | none => (users, .error .notFound)
    | some d =>
      if d.id = adminId then (users, .error .selfTarget)
      else
        (updateFirstUserById users d.id
          (fun u => { u with role := newRole, updated_at := some now }), .ok ())

/-- Embeds `toggle_user_lock` (main.py 1809-1841): target lookup, self-check, then a
`$set` of the lock flag and update timestamp. -/
def toggle_user_lock (users : List UserDoc) (adminId targetId : String)
    (isLocked : Bool) (now : Nat) : List UserDoc × Except AdminErr Unit :=
  match _find_user_by_id users targetId with
  | none => (users, .error .notFound)
  | some d =>
    if d.id = adminId then (users, .error .selfTarget)
    else
      (updateFirstUserById users d.id
        (fun u => { u with is_locked := isLocked, updated_at := some now }), .ok ())

/-- Embeds `delete_user` (main.py 1848-1867): target lookup, self-check, then a
`delete_one`. -/
def delete_user (users : List UserDoc) (adminId targetId : String) :
    List UserDoc × Except AdminErr Unit :=
  match _find_user_by_id users targetId with
  | none => (users, .error .notFound)
  | some d =>
    if d.id = adminId then (users, .error .selfTarget)
    else (deleteFirstUserById users d.id, .ok ())

/-- An id-preserving update of a document with an id different from `aid`
leaves the documents with id `aid` untouched. -/
theorem updateFirstUserById_filter_ne (users : List UserDoc) (tid aid : String)
    (f : UserDoc → UserDoc) (hne : tid ≠ aid) (hf : ∀ u, (f u).id = u.id) :
    (updateFirstUserById users tid f).filter (fun u => u.id == aid) =
      users.filter fun u => u.id == aid := by
  induction users with
  | nil => rfl
  | cons u us ih =>
    rw [updateFirstUserById]
    by_cases hu : u.id = tid
    · rw [if_pos hu]
      rw [List.filter_cons_of_neg (by simp [hf u, hu, hne]),
        List.filter_cons_of_neg (by simp [hu, hne])]
    · rw [if_neg hu]
      by_cases hua : u.id = aid
      · rw [List.filter_cons_of_pos (by simp [hua]), List.filter_cons_of_pos (by simp [hua]), ih]
      · rw [List.filter_cons_of_neg (by simp [hua]), List.filter_cons_of_neg (by simp [hua]), ih]

/-- Deleting a document with an id different from `aid` leaves the documents
with id `aid` untouched. -/
theorem deleteFirstUserById_filter_ne (users : List UserDoc) (tid aid : String)
    (hne : tid ≠ aid) :
    (deleteFirstUserById users tid).filter (fun u => u.id == aid) =
      users.filter fun u => u.id == aid := by
  induction users with
  | nil => rfl
  | cons u us ih =>
    rw [deleteFirstUserById]
    by_cases hu : u.id = tid
    · rw [if_pos hu, List.filter_cons_of_neg (by simp [hu, hne])]
    · rw [if_neg hu]
      by_cases hua : u.id = aid
      · rw [List.filter_cons_of_pos (by simp [hua]), List.filter_cons_of_pos (by simp [hua]), ih]
      · rw [List.filter_cons_of_neg (by simp [hua]), List.filter_cons_of_neg (by simp [hua]), ih]

/-- Claim C10: when the target of an admin-only user mutation resolves to the
calling admin's own account, each of the three operations fails with a
client error and leaves the users collection unchanged; and whatever the
target, the calling admin's own user documents are preserved by every such
operation. -/
theorem c10_admin_self_preserved (users : List UserDoc)
    (adminId targetId newRole : String) (now : Nat) (lockFlag : Bool)
    (d : UserDoc)
    (hfind : _find_user_by_id users targetId = some d) (hself : d.id = adminId) :
    (∃ err, update_user_role users adminId targetId newRole now =
      (users, Except.error err)) ∧
    toggle_user_lock users adminId targetId lockFlag now =
      (users, Except.error AdminErr.selfTarget) ∧
    delete_user users adminId targetId = (users, Except.error AdminErr.selfTarget) ∧
    (∀ t r n, (update_user_role users adminId t r n).1.filter (fun u => u.id == adminId) =
      users.filter fun u => u.id == adminId) ∧
    (∀ t b n, (toggle_user_lock users adminId t b n).1.filter (fun u => u.id == adminId) =
      users.filter fun u => u.id == adminId) ∧
    (∀ t, (delete_user users adminId t).1.filter (fun u => u.id == adminId) =
      users.filter fun u => u.id == adminId) := by
  refine ⟨?_, ?_, ?_, ?_, ?_, ?_⟩
  · unfold update_user_role
    by_cases hrole : newRole ∉ (["citizen", "manager", "admin"] : List String)
    · exact ⟨AdminErr.invalidRole, by rw [if_pos hrole]⟩
    · refine ⟨AdminErr.selfTarget, ?_⟩
      rw [if_neg hrole, hfind]
      dsimp only
      rw [if_pos hself]
  · unfold toggle_user_lock
    rw [hfind]
    dsimp only
    rw [if_pos hself]
  · unfold delete_user
    rw [hfind]
    dsimp only
    rw [if_pos hself]
  · intro t r n
    unfold update_user_role
    by_cases hrole : r ∉ (["citizen", "manager", "admin"] : List String)
    · rw [if_pos hrole]
    · rw [if_neg hrole]
      cases hf2 : _find_user_by_id users t with
      | none => rfl
      | some d2 =>
        dsimp only
        by_cases hs : d2.id = adminId
        · rw [if_pos hs]
        · rw [if_neg hs]
          exact updateFirstUserById_filter_ne users d2.id adminId _ hs fun u => rfl
  · intro t b n
    unfold toggle_user_lock
    cases hf2 : _find_user_by_id users t with
    | none => rfl
    | some d2 =>
      dsimp only
      by_cases hs : d2.id = adminId
      · rw [if_pos hs]
      · rw [if_neg hs]
        exact updateFirstUserById_filter_ne users d2.id adminId _ hs fun u => rfl
  · intro t
    unfold delete_user
    cases hf2 : _find_user_by_id users t with
    | none => rfl
    | some d2 =>
      dsimp only
      by_cases hs : d2.id = adminId
      · rw [if_pos hs]
      · rw [if_neg hs]
        exact deleteFirstUserById_filter_ne users d2.id adminId hs

/- Concrete input for C10: the admin targets their own account (resolved by
username, exercising the username fallback of the lookup). -/

def c10Admin : UserDoc := { id := "u1", username := "admin", role := "admin" }

def c10Other : UserDoc := { id := "u2", username := "bob", role := "citizen" }

/-- Witness for C10: an admin targeting the account that resolves to
themselves. -/
theorem c10_admin_self_witness :
    (∃ err, update_user_role [c10Admin, c10Other] "u1" "admin" "citizen" 5 =
      ([c10Admin, c10Other], Except.error err)) ∧
    toggle_user_lock [c10Admin, c10Other] "u1" "admin" true 5 =
      ([c10Admin, c10Other], Except.error AdminErr.selfTarget) ∧
    delete_user [c10Admin, c10Other] "u1" "admin" =
      ([c10Admin, c10Other], Except.error AdminErr.selfTarget) ∧
    (∀ t r n, (update_user_role [c10Admin, c10Other] "u1" t r n).1.filter (fun u => u.id == "u1") =
      [c10Admin, c10Other].filter fun u => u.id == "u1") ∧
    (∀ t b n, (toggle_user_lock [c10Admin, c10Other] "u1" t b n).1.filter (fun u => u.id == "u1") =
      [c10Admin, c10Other].filter fun u => u.id == "u1") ∧
    (∀ t, (delete_user [c10Admin, c10Other] "u1" t).1.filter (fun u => u.id == "u1") =
      [c10Admin, c10Other].filter fun u => u.id == "u1") :=
  c10_admin_self_preserved [c10Admin, c10Other] "u1" "admin" "citizen" 5 true c10Admin
    (by decide) rfl

end EV
